import Mathlib

/-!
Shallow embedding of the `himdd/letta` example scripts:
`examples/writer/writing_agent.py`, `examples/writer/writing_agent_local.py`
and `examples/writing/ultimate_simple.py`.

The scripts drive a remote agent server through the `letta_client` SDK.
The SDK and the server are modelled as an oracle (`Env`): a record of
response functions, one per remote method used by the scripts
(`agents.create`, `agents.messages.create`, `agents.blocks.modify`,
`agents.blocks.retrieve`), plus the wall clock read by `datetime.now()`.
Each script operation becomes a Lean function from the oracle and the
local mutable state to a result, the list of remote calls it issued
(in order), and the new local state.  Python exceptions are modelled
with `Except PyExc`; a `try/except` that swallows the exception is
modelled by not propagating the oracle's error.
-/

/-- Embedding of `letta_client.MessageCreate(role=..., content=...)`. -/
structure MessageCreate where
  role : String
  content : String
deriving Repr, DecidableEq

/-- One message of a remote response; the scripts read `.content` and
(in `ultimate_simple.py`) `.message_type`. -/
structure LettaMessage where
  message_type : String
  content : String
deriving Repr, DecidableEq

/-- Response of `client.agents.messages.create`: the scripts only use its
`messages` list. -/
structure MessagesResponse where
  messages : List LettaMessage
deriving Repr, DecidableEq

/-- Embedding of `letta_client.CreateBlock`: `description` is `none` when the
keyword is not passed at the call site. -/
structure CreateBlock where
  label : String
  description : Option String
  value : String
deriving Repr, DecidableEq

/-- The remote agent object; the scripts only use `.id` and `.name`. -/
structure AgentObj where
  id : String
  name : String
deriving Repr, DecidableEq

/-- The argument record of a `client.agents.create` call; `tools` is `none`
when the keyword is not passed at the call site. -/
structure CreateAgentRequest where
  name : String
  memory_blocks : List CreateBlock
  model : String
  embedding : String
  tools : Option (List String)
deriving Repr, DecidableEq

/-- A memory block returned by `client.agents.blocks.retrieve`; the scripts
only read `.value`. -/
structure Block where
  value : String
deriving Repr, DecidableEq

/-- How the `Letta` client object was constructed: from a token
(`Letta(token=...)`) or from a base URL (`Letta(base_url=...)`,
with `timeout=120` in the local variant). -/
inductive ClientConfig where
  | fromToken (token : String)
  | fromBaseUrl (base_url : String) (timeout : Option Nat)
deriving Repr, DecidableEq

/-- One remote SDK call issued by a script, with its arguments. -/
inductive RemoteCall where
  | createAgent (req : CreateAgentRequest)
  | sendMessages (agent_id : String) (msgs : List MessageCreate)
  | modifyBlock (agent_id : String) (block_label : String) (value : String) (read_only : Bool)
  | retrieveBlock (agent_id : String) (block_label : String)
deriving Repr, DecidableEq

/-- Python exceptions the scripts can raise or see. -/
inductive PyExc where
  | valueError (msg : String)
  | keyError (key : String)
  | indexError
  | remoteError (msg : String)
deriving Repr, DecidableEq

/-- The oracle for the remote server and the wall clock: what each remote
method would answer.  An `Except.error` models the SDK raising. -/
structure Env where
  now : String
  createAgentResult : CreateAgentRequest → Except String AgentObj
  sendResult : String → List MessageCreate → Except String MessagesResponse
  modifyResult : String → String → String → Bool → Except String Unit
  retrieveResult : String → String → Except String Block

/-- The mutable attributes of a `WritingAgent` object (both variants):
`self.agent`, `self.writing_style`, `self.current_project`. -/
structure WAState where
  agent : Option AgentObj
  writing_style : String
  current_project : Option String
deriving Repr, DecidableEq

/-- Result of one operation: the returned value or raised exception, the
remote calls issued in order, and the new object state. -/
structure OpResult (α : Type) where
  result : Except PyExc α
  trace : List RemoteCall
  state : WAState

/-- Python truthiness of an optional string: `None` and `""` are falsy. -/
def pyTruthyStr : Option String → Bool
  | none => false
  | some s => s != ""

/-- Python `sep.join(items)` on a list of strings. -/
def py_join (sep : String) : List String → String
  | [] => ""
  | [x] => x
  | x :: y :: xs => x ++ sep ++ py_join sep (y :: xs)

/-- Default value of the `base_url` parameter of `WritingAgent.__init__`
in both variants. -/
def default_base_url : String := "http://localhost:8283"

/-- Embedding of `WritingAgent.__init__` of `writing_agent.py`: the client
construction (`if token: Letta(token=token) else: Letta(base_url=base_url)`). -/
def letta_client_init (base_url : String) (token : Option String) : ClientConfig :=
  match token with
  | some t => if t != "" then ClientConfig.fromToken t else ClientConfig.fromBaseUrl base_url none
  | none => ClientConfig.fromBaseUrl base_url none

/-- The full initial state produced by `WritingAgent.__init__` (both variants
set the same three attributes). -/
def writing_agent_init_state : WAState :=
  { agent := none, writing_style := "专业、清晰、有逻辑性", current_project := none }

/-- Client construction plus model/embedding choice of
`WritingAgent.__init__` in `writing_agent_local.py`. -/
structure LocalInit where
  client : ClientConfig
  model : String
  embedding : String
deriving Repr, DecidableEq

/-- Embedding of `WritingAgent.__init__` of `writing_agent_local.py`. -/
def letta_client_init_local (base_url : String) (token : Option String) : LocalInit :=
  match token with
  | some t =>
    if t != "" then
      ⟨ClientConfig.fromToken t, "openai/gpt-4o-mini", "openai/text-embedding-3-small"⟩
    else
      ⟨ClientConfig.fromBaseUrl base_url (some 120), "deepseek/deepseek-chat", "ollama/nomic-embed-text:latest"⟩
  | none =>
    ⟨ClientConfig.fromBaseUrl base_url (some 120), "deepseek/deepseek-chat", "ollama/nomic-embed-text:latest"⟩

/-- The `persona` block value of `create_writing_agent` in `writing_agent.py`. -/
def persona_value (style : String) : String :=
  "你是一个专业的写作助手，具有以下特点：\n1. 写作风格：" ++ style ++ "\n2. 擅长各种文体：学术论文、商业报告、创意写作、技术文档等\n3. 注重逻辑性、清晰度和可读性\n4. 能够根据读者群体调整写作风格\n5. 具备研究和分析能力，能够提供有深度的内容"

/-- The `writing_skills` block value of `create_writing_agent` in
`writing_agent.py`. -/
def writing_skills_value : String :=
  "核心写作技能：\n- 结构化写作：能够组织清晰的文章结构\n- 语言表达：使用准确、生动的语言\n- 逻辑推理：构建有力的论证\n- 读者导向：根据目标读者调整内容\n- 创意表达：在保持专业性的同时展现创意"

/-- The `agents.create` argument record built by `create_writing_agent` in
`writing_agent.py` (no `description` on any block; `tools=["web_search"]`). -/
def create_agent_request (name style : String) : CreateAgentRequest :=
  { name := name
  , memory_blocks :=
      [ ⟨"persona", none, persona_value style⟩
      , ⟨"writing_skills", none, writing_skills_value⟩
      , ⟨"current_project", none, "写作项目"⟩ ]
  , model := "openai/gpt-4o-mini"
  , embedding := "openai/text-embedding-3-small"
  , tools := some ["web_search"] }

/-- Embedding of `WritingAgent.create_writing_agent` of `writing_agent.py`:
optionally replace `self.writing_style` (Python truthiness on `style`),
issue `agents.create`, store the agent, return its id. -/
def create_writing_agent (env : Env) (s : WAState) (name : String) (style : Option String) :
    OpResult String :=
  let s1 : WAState :=
    match style with
    | some st => if st != "" then { s with writing_style := st } else s
    | none => s
  let req := create_agent_request name s1.writing_style
  match env.createAgentResult req with
  | Except.error e => ⟨Except.error (PyExc.remoteError e), [RemoteCall.createAgent req], s1⟩
  | Except.ok a => ⟨Except.ok a.id, [RemoteCall.createAgent req], { s1 with agent := some a }⟩

/-- The `project_info` f-string of `start_writing_project` (both variants);
`requirements or '无'` uses Python truthiness, `datetime.now()` is the
oracle's clock. -/
def project_info (now project_name project_type target_audience requirements : String) : String :=
  "\n写作项目信息：\n- 项目名称：" ++ project_name ++ "\n- 项目类型：" ++ project_type ++
    "\n- 目标读者：" ++ target_audience ++ "\n- 特殊要求：" ++
    (if requirements != "" then requirements else "无") ++ "\n- 开始时间：" ++ now ++ "\n"

/-- Embedding of `WritingAgent._update_memory_block` (identical in both
variants): the whole body is wrapped in `try/except Exception: print`, so it
never raises; with an agent it issues one `agents.blocks.modify` call with
the new value wholesale and `read_only=False` (the `blocks.retrieve` line is
commented out in the source); with `self.agent = None` the attribute access
raises inside the `try` and is swallowed, so no remote call is made. -/
def update_memory_block (_env : Env) (s : WAState) (block_label new_value : String) :
    OpResult Unit :=
  match s.agent with
  | none => ⟨Except.ok (), [], s⟩
  | some a =>
    ⟨Except.ok (), [RemoteCall.modifyBlock a.id block_label new_value false], s⟩

/-- Embedding of `WritingAgent.start_writing_project` (identical in both
variants): precondition check, build `project_info`, update the
`current_project` block, set `self.current_project`. -/
def start_writing_project (env : Env) (s : WAState)
    (project_name project_type target_audience requirements : String) : OpResult Unit :=
  match s.agent with
  | none => ⟨Except.error (PyExc.valueError "请先创建写作智能体"), [], s⟩
  | some _ =>
    let info := project_info env.now project_name project_type target_audience requirements
    let u := update_memory_block env s "current_project" info
    ⟨Except.ok (), u.trace, { u.state with current_project := some project_name }⟩

/-- Send one user message to the current agent and return the last response
message's content, as done inline by `generate_outline`, `expand_content`,
`polish_content`, `adjust_style` and `research_topic`; `messages[-1]` on an
empty list raises `IndexError`. -/
def send_and_take_last (env : Env) (s : WAState) (a : AgentObj) (prompt : String) :
    OpResult String :=
  match env.sendResult a.id [MessageCreate.mk "user" prompt] with
  | Except.error e =>
    ⟨Except.error (PyExc.remoteError e),
      [RemoteCall.sendMessages a.id [MessageCreate.mk "user" prompt]], s⟩
  | Except.ok resp =>
    match resp.messages.getLast? with
    | none =>
      ⟨Except.error PyExc.indexError,
        [RemoteCall.sendMessages a.id [MessageCreate.mk "user" prompt]], s⟩
    | some m =>
      ⟨Except.ok m.content,
        [RemoteCall.sendMessages a.id [MessageCreate.mk "user" prompt]], s⟩

/-- The prompt f-string of `generate_outline` in `writing_agent.py`. -/
def generate_outline_prompt (topic structure_type : String) : String :=
  "\n请为以下主题生成详细的写作大纲：\n\n主题：" ++ topic ++ "\n结构类型：" ++ structure_type ++
    "\n\n请提供：\n1. 文章标题建议\n2. 主要章节结构\n3. 每个章节的关键要点\n4. 逻辑流程说明\n5. 建议的写作顺序\n\n请确保大纲逻辑清晰，结构合理。\n"

/-- Embedding of `WritingAgent.generate_outline` of `writing_agent.py`. -/
def generate_outline (env : Env) (s : WAState) (topic structure_type : String) :
    OpResult String :=
  match s.agent with
  | none => ⟨Except.error (PyExc.valueError "请先创建写作智能体"), [], s⟩
  | some a => send_and_take_last env s a (generate_outline_prompt topic structure_type)

/-- The `points_text` local of `expand_content` (both variants):
`"\n".join([f"- {point}" for point in key_points])`. -/
def points_text (key_points : List String) : String :=
  py_join "\n" (key_points.map (fun p => "- " ++ p))

/-- The prompt f-string of `expand_content` (identical in both variants). -/
def expand_content_prompt (sec : String) (key_points : List String) (word_count : Nat) : String :=
  "\n请将以下章节内容扩展为完整的段落：\n\n章节：" ++ sec ++ "\n关键要点：\n" ++
    points_text key_points ++
    "\n\n要求：\n1. 字数控制在 " ++ toString word_count ++
    " 字左右\n2. 保持逻辑清晰，过渡自然\n3. 使用具体的例子和细节\n4. 确保内容有深度和说服力\n5. 语言流畅，符合目标读者需求\n\n请直接输出扩展后的内容，不需要额外说明。\n"

/-- Embedding of `WritingAgent.expand_content` (identical in both variants). -/
def expand_content (env : Env) (s : WAState) (sec : String) (key_points : List String)
    (word_count : Nat) : OpResult String :=
  match s.agent with
  | none => ⟨Except.error (PyExc.valueError "请先创建写作智能体"), [], s⟩
  | some a => send_and_take_last env s a (expand_content_prompt sec key_points word_count)

/-- The `focus_text` local of `polish_content`: empty unless `focus_areas`
is a truthy (non-`None`, non-empty) list. -/
def focus_text (focus_areas : Option (List String)) : String :=
  match focus_areas with
  | some l => if l.isEmpty then "" else "\n重点润色方面：" ++ py_join ", " l
  | none => ""

/-- The prompt f-string of `polish_content` in `writing_agent.py`. -/
def polish_content_prompt (content : String) (focus_areas : Option (List String)) : String :=
  "\n请对以下内容进行润色改进：\n\n" ++ content ++
    "\n\n润色要求：\n1. 改进语言表达，使其更加生动有力\n2. 优化句子结构，提高可读性\n3. 增强逻辑性和连贯性\n4. 确保用词准确，避免重复\n5. 保持原文的核心观点和结构" ++
    focus_text focus_areas ++
    "\n\n请直接输出润色后的内容，并简要说明主要改进点。\n"

/-- Embedding of `WritingAgent.polish_content` of `writing_agent.py`. -/
def polish_content (env : Env) (s : WAState) (content : String)
    (focus_areas : Option (List String)) : OpResult String :=
  match s.agent with
  | none => ⟨Except.error (PyExc.valueError "请先创建写作智能体"), [], s⟩
  | some a => send_and_take_last env s a (polish_content_prompt content focus_areas)

/-- The prompt f-string of `adjust_style` in `writing_agent.py`. -/
def adjust_style_prompt (content target_style : String) : String :=
  "\n请将以下内容调整为 " ++ target_style ++ " 的写作风格：\n\n" ++ content ++
    "\n\n风格调整要求：\n1. 语言风格：" ++ target_style ++
    "\n2. 保持原文的核心信息和逻辑结构\n3. 调整语调和表达方式以符合目标风格\n4. 确保风格转换自然，不显突兀\n5. 保持内容的专业性和准确性\n\n请直接输出调整后的内容。\n"

/-- Embedding of `WritingAgent.adjust_style` of `writing_agent.py`. -/
def adjust_style (env : Env) (s : WAState) (content target_style : String) : OpResult String :=
  match s.agent with
  | none => ⟨Except.error (PyExc.valueError "请先创建写作智能体"), [], s⟩
  | some a => send_and_take_last env s a (adjust_style_prompt content target_style)

/-- The `depth_instructions` dict literal of `research_topic`. -/
def depth_instructions : List (String × String) :=
  [ ("shallow", "提供基础信息和概述")
  , ("medium", "提供详细信息和多个角度")
  , ("deep", "提供深入分析和专业见解") ]

/-- The prompt f-string of `research_topic`, given the already-looked-up
instruction text (it is interpolated twice). -/
def research_topic_prompt (topic instr : String) : String :=
  "\n请对以下主题进行 " ++ instr ++ " 的研究：\n\n主题：" ++ topic ++
    "\n\n请提供：\n1. 主题的核心概念和定义\n2. 相关的重要事实和数据\n3. 不同观点和争议点\n4. 实际应用和案例\n5. 进一步研究的建议\n\n研究要求：" ++
    instr ++ "，确保信息的准确性和相关性。\n"

/-- Embedding of `WritingAgent.research_topic` of `writing_agent.py`:
after the agent precondition, `depth_instructions[depth]` is an unguarded
dict lookup that raises `KeyError(depth)` on a missing key, before any
remote call. -/
def research_topic (env : Env) (s : WAState) (topic depth : String) : OpResult String :=
  match s.agent with
  | none => ⟨Except.error (PyExc.valueError "请先创建写作智能体"), [], s⟩
  | some a =>
    match depth_instructions.lookup depth with
    | none => ⟨Except.error (PyExc.keyError depth), [], s⟩
    | some instr => send_and_take_last env s a (research_topic_prompt topic instr)

/-- Embedding of `WritingAgent.get_writing_progress` (identical in both
variants): with no agent it returns an error dict; otherwise the remote
retrieve is wrapped in `try/except`, returning an error dict on failure.
Dicts are modelled as association lists. -/
def get_writing_progress (env : Env) (s : WAState) : OpResult (List (String × String)) :=
  match s.agent with
  | none => ⟨Except.ok [("error", "智能体未创建")], [], s⟩
  | some a =>
    match env.retrieveResult a.id "current_project" with
    | Except.error e =>
      ⟨Except.ok [("error", "获取进度失败: " ++ e)],
        [RemoteCall.retrieveBlock a.id "current_project"], s⟩
    | Except.ok b =>
      ⟨Except.ok [("current_project", b.value), ("agent_id", a.id), ("agent_name", a.name)],
        [RemoteCall.retrieveBlock a.id "current_project"], s⟩

/-- The `persona` block value of `create_writing_agent` in
`writing_agent_local.py` (its text differs from the other variant). -/
def persona_value_local (style : String) : String :=
  "你是一个专业的写作助手，具有以下特点：\n1. 写作风格：" ++ style ++ "\n2. 擅长各种文体：新闻新作、商业报告、创意写作、技术文档等\n3. 注重逻辑性、清晰度和可读性\n4. 能够根据读者群体调整写作风格\n5. 具备获得最新热点能力"

/-- The `agents.create` argument record built by `create_writing_agent` in
`writing_agent_local.py`: every block carries a `description`, and the model
and embedding identifiers come from `__init__`. -/
def create_agent_request_local (name style model embedding : String) : CreateAgentRequest :=
  { name := name
  , memory_blocks :=
      [ ⟨"persona",
          some "本块存储有关当前agent角色的详细信息,指导agent的行为和响应方式。助于和用户在互动中保持一致性.",
          persona_value_local style⟩
      , ⟨"writing_skills",
          some "本块存储写作写作技巧相关知识 ，帮助智能体提升写作质量。",
          writing_skills_value⟩
      , ⟨"current_project",
          some "本块存储当前的写作项目详情，帮助智能体跟踪进度和要求。",
          "写作项目"⟩ ]
  , model := model
  , embedding := embedding
  , tools := some ["web_search"] }

/-- Embedding of `WritingAgent.create_writing_agent` of
`writing_agent_local.py`. -/
def create_writing_agent_local (env : Env) (s : WAState) (model embedding : String)
    (name : String) (style : Option String) : OpResult String :=
  let s1 : WAState :=
    match style with
    | some st => if st != "" then { s with writing_style := st } else s
    | none => s
  let req := create_agent_request_local name s1.writing_style model embedding
  match env.createAgentResult req with
  | Except.error e => ⟨Except.error (PyExc.remoteError e), [RemoteCall.createAgent req], s1⟩
  | Except.ok a => ⟨Except.ok a.id, [RemoteCall.createAgent req], { s1 with agent := some a }⟩

/-- The prompt f-string of `generate_outline` in `writing_agent_local.py`
(its bullet list differs from the other variant). -/
def generate_outline_prompt_local (topic structure_type : String) : String :=
  "\n请为以下主题生成详细的写作大纲：\n\n主题：" ++ topic ++ "\n结构类型：" ++ structure_type ++
    "\n\n请提供：\n1. 文章标题建议\n2. 大纲结构(简短说明)\n3. 不超过300字\n请确保大纲逻辑清晰，结构合理。\n"

/-- Embedding of `WritingAgent.generate_outline` of `writing_agent_local.py`. -/
def generate_outline_local (env : Env) (s : WAState) (topic structure_type : String) :
    OpResult String :=
  match s.agent with
  | none => ⟨Except.error (PyExc.valueError "请先创建写作智能体"), [], s⟩
  | some a => send_and_take_last env s a (generate_outline_prompt_local topic structure_type)

/-- The `agents.create` argument record of `create_writer` in
`ultimate_simple.py`: one block with no `description`, and no `tools`
keyword at all. -/
def ultimate_create_request : CreateAgentRequest :=
  { name := "deepseek_writer"
  , memory_blocks := [⟨"persona", none, "你是专业写作助手，使用 DeepSeek 模型"⟩]
  , model := "deepseek/deepseek-chat"
  , embedding := "ollama/nomic-embed-text:latest"
  , tools := none }

/-- Embedding of `create_writer` of `ultimate_simple.py`: `os.getenv` yields
`none` when the variable is unset; `if not os.getenv(...)` is Python
truthiness, so unset or empty raises `ValueError` before the client is
constructed; otherwise the client is built from the hard-coded base URL and
`agents.create` is issued. -/
def create_writer (env : Env) (deepseek_api_key : Option String) :
    Except PyExc (ClientConfig × AgentObj) × List RemoteCall :=
  if pyTruthyStr deepseek_api_key then
    match env.createAgentResult ultimate_create_request with
    | Except.error e =>
      (Except.error (PyExc.remoteError e), [RemoteCall.createAgent ultimate_create_request])
    | Except.ok a =>
      (Except.ok (ClientConfig.fromBaseUrl "http://localhost:8283" none, a),
        [RemoteCall.createAgent ultimate_create_request])
  else
    (Except.error (PyExc.valueError "需要设置 DEEPSEEK_API_KEY 环境变量"), [])

/-- The prompt f-string of `write_article` in `ultimate_simple.py`. -/
def write_article_prompt (topic : String) : String :=
  "写一篇关于 " ++ topic ++ " 的文章"

/-- Embedding of `write_article` of `ultimate_simple.py`: it returns the last
message's content only when that message's `message_type` equals
`"assistant_message"`, and the literal string `"写作完成"` otherwise. -/
def write_article (env : Env) (agent : AgentObj) (topic : String) :
    Except PyExc String × List RemoteCall :=
  match env.sendResult agent.id [MessageCreate.mk "user" (write_article_prompt topic)] with
  | Except.error e =>
    (Except.error (PyExc.remoteError e),
      [RemoteCall.sendMessages agent.id [MessageCreate.mk "user" (write_article_prompt topic)]])
  | Except.ok resp =>
    match resp.messages.getLast? with
    | none =>
      (Except.error PyExc.indexError,
        [RemoteCall.sendMessages agent.id [MessageCreate.mk "user" (write_article_prompt topic)]])
    | some m =>
      (Except.ok (if m.message_type == "assistant_message" then m.content else "写作完成"),
        [RemoteCall.sendMessages agent.id [MessageCreate.mk "user" (write_article_prompt topic)]])

/-- Substring containment on character lists: `t` occurs contiguously in `l`. -/
def listContains (l t : List Char) : Prop :=
  ∃ u v : List Char, l = u ++ t ++ v

/-- Substring containment on strings: `t` occurs verbatim in `s`. -/
def strContains (s t : String) : Prop :=
  listContains s.data t.data

theorem listContains_self (l : List Char) : listContains l l :=
  ⟨[], [], by simp⟩

theorem listContains_append_left (l t r : List Char) (h : listContains l t) :
    listContains (r ++ l) t := by
  obtain ⟨u, v, rfl⟩ := h
  exact ⟨r ++ u, v, by simp⟩

theorem listContains_append_right (l t r : List Char) (h : listContains l t) :
    listContains (l ++ r) t := by
  obtain ⟨u, v, rfl⟩ := h
  exact ⟨u, v ++ r, by simp⟩

theorem strContains_middle (a t b : String) : strContains (a ++ t ++ b) t := by
  unfold strContains listContains
  exact ⟨a.data, b.data, by simp [String.data_append]⟩

theorem strContains_of_middle (a t b : String) (sub : String) (h : strContains t sub) :
    strContains (a ++ t ++ b) sub := by
  unfold strContains at h ⊢
  simp only [String.data_append]
  exact listContains_append_right _ _ _ (listContains_append_left _ _ _ h)

theorem strContains_py_join (sep : String) (l : List String) (x : String) (hx : x ∈ l) :
    strContains (py_join sep l) x := by
  induction l with
  | nil => cases hx
  | cons y ys ih =>
    cases ys with
    | nil =>
      have hxy : x = y := by simpa using hx
      subst hxy
      have hpj : py_join sep [x] = x := rfl
      show listContains (py_join sep [x]).data x.data
      rw [hpj]
      exact listContains_self _
    | cons z zs =>
      have hpj : py_join sep (y :: z :: zs) = y ++ sep ++ py_join sep (z :: zs) := rfl
      rcases List.mem_cons.mp hx with rfl | hmem
      · show listContains (py_join sep (x :: z :: zs)).data x.data
        rw [hpj]
        simp only [String.data_append]
        rw [List.append_assoc]
        exact listContains_append_right _ _ _ (listContains_self _)
      · have h2 := ih hmem
        show listContains (py_join sep (y :: z :: zs)).data x.data
        rw [hpj]
        simp only [String.data_append]
        exact listContains_append_left _ _ _ h2

theorem strContains_points_text (key_points : List String) (p : String)
    (hp : p ∈ key_points) : strContains (points_text key_points) ("- " ++ p) := by
  unfold points_text
  exact strContains_py_join _ _ _ (List.mem_map_of_mem _ hp)

theorem strContains_str_self (t : String) : strContains t t := listContains_self _

theorem strContains_str_left (s r t : String) (h : strContains s t) : strContains (s ++ r) t := by
  unfold strContains at h ⊢
  rw [String.data_append]
  exact listContains_append_right _ _ _ h

theorem strContains_str_right (s r t : String) (h : strContains s t) : strContains (r ++ s) t := by
  unfold strContains at h ⊢
  rw [String.data_append]
  exact listContains_append_left _ _ _ h

theorem strContains_drop_pre (s pre t : String) (h : strContains s (pre ++ t)) :
    strContains s t := by
  obtain ⟨u, v, huv⟩ := h
  rw [String.data_append] at huv
  exact ⟨u ++ pre.data, v, by rw [huv]; simp⟩

theorem send_and_take_last_trace (env : Env) (s : WAState) (a : AgentObj) (prompt : String) :
    (send_and_take_last env s a prompt).trace =
      [RemoteCall.sendMessages a.id [MessageCreate.mk "user" prompt]] := by
  unfold send_and_take_last
  split
  · rfl
  · split <;> rfl

theorem send_and_take_last_concat (env : Env) (s : WAState) (a : AgentObj) (prompt : String)
    (ms : List LettaMessage) (m : LettaMessage)
    (h : env.sendResult a.id [MessageCreate.mk "user" prompt] = Except.ok ⟨ms ++ [m]⟩) :
    (send_and_take_last env s a prompt).result = Except.ok m.content := by
  unfold send_and_take_last
  rw [h]
  simp [List.getLast?_concat]

/-- A sample oracle used to instantiate theorems at concrete inputs. -/
def sampleEnv : Env :=
  { now := "2025-01-01 00:00:00"
  , createAgentResult := fun _ => Except.ok ⟨"agent-1", "writer"⟩
  , sendResult := fun _ _ => Except.ok ⟨[⟨"assistant_message", "OK"⟩]⟩
  , modifyResult := fun _ _ _ _ => Except.ok ()
  , retrieveResult := fun _ _ => Except.ok ⟨"写作项目"⟩ }

/-- C2: with `self.agent = None`, every prompt/project operation
(`start_writing_project`, `generate_outline`, `expand_content`,
`polish_content`, `adjust_style`, `research_topic`, and the local variant's
`generate_outline`; the local `start_writing_project` and `expand_content`
are embedded by the same definitions) raises
`ValueError("请先创建写作智能体")` from the local precondition check, with
no remote call issued and the state unchanged. -/
theorem agent_none_raises_create_first (env : Env) (st : String) (pr : Option String)
    (pn pt ta rq topic stype sec cont tsty depth : String) (kps : List String)
    (fa : Option (List String)) (wc : Nat) :
    start_writing_project env ⟨none, st, pr⟩ pn pt ta rq =
      ⟨Except.error (PyExc.valueError "请先创建写作智能体"), [], ⟨none, st, pr⟩⟩ ∧
    generate_outline env ⟨none, st, pr⟩ topic stype =
      ⟨Except.error (PyExc.valueError "请先创建写作智能体"), [], ⟨none, st, pr⟩⟩ ∧
    expand_content env ⟨none, st, pr⟩ sec kps wc =
      ⟨Except.error (PyExc.valueError "请先创建写作智能体"), [], ⟨none, st, pr⟩⟩ ∧
    polish_content env ⟨none, st, pr⟩ cont fa =
      ⟨Except.error (PyExc.valueError "请先创建写作智能体"), [], ⟨none, st, pr⟩⟩ ∧
    adjust_style env ⟨none, st, pr⟩ cont tsty =
      ⟨Except.error (PyExc.valueError "请先创建写作智能体"), [], ⟨none, st, pr⟩⟩ ∧
    research_topic env ⟨none, st, pr⟩ topic depth =
      ⟨Except.error (PyExc.valueError "请先创建写作智能体"), [], ⟨none, st, pr⟩⟩ ∧
    generate_outline_local env ⟨none, st, pr⟩ topic stype =
      ⟨Except.error (PyExc.valueError "请先创建写作智能体"), [], ⟨none, st, pr⟩⟩ :=
  ⟨rfl, rfl, rfl, rfl, rfl, rfl, rfl⟩

/-- C5: `_update_memory_block` sends the new string wholesale as the block's
full value in a single `agents.blocks.modify` call with `read_only=False`;
no retrieve or merge precedes it (with no agent, the swallowed attribute
error means no remote call at all), and `start_writing_project`'s block
update is exactly such a call on `current_project`. -/
theorem update_memory_block_wholesale (env : Env) (st : String) (pr : Option String)
    (a : AgentObj) (label value pn pt ta rq : String) :
    update_memory_block env ⟨some a, st, pr⟩ label value =
      ⟨Except.ok (), [RemoteCall.modifyBlock a.id label value false], ⟨some a, st, pr⟩⟩ ∧
    update_memory_block env ⟨none, st, pr⟩ label value =
      ⟨Except.ok (), [], ⟨none, st, pr⟩⟩ ∧
    (start_writing_project env ⟨some a, st, pr⟩ pn pt ta rq).trace =
      [RemoteCall.modifyBlock a.id "current_project"
        (project_info env.now pn pt ta rq) false] :=
  ⟨rfl, rfl, rfl⟩

/-- C9: with an agent present, `start_writing_project` always returns
normally and always sets `self.current_project` to the supplied project
name, for every oracle — in particular also when the remote block
modification fails, since `_update_memory_block` swallows every exception;
the remote failure is not atomic with respect to local state. -/
theorem start_writing_project_total (env : Env) (st : String) (pr : Option String)
    (a : AgentObj) (pn pt ta rq e : String) :
    (start_writing_project env ⟨some a, st, pr⟩ pn pt ta rq).result = Except.ok () ∧
    (start_writing_project env ⟨some a, st, pr⟩ pn pt ta rq).state.current_project = some pn ∧
    (start_writing_project { env with modifyResult := fun _ _ _ _ => Except.error e }
        ⟨some a, st, pr⟩ pn pt ta rq).result = Except.ok () ∧
    (start_writing_project { env with modifyResult := fun _ _ _ _ => Except.error e }
        ⟨some a, st, pr⟩ pn pt ta rq).state.current_project = some pn :=
  ⟨rfl, rfl, rfl, rfl⟩

/-- C8: `get_writing_progress` never raises — it returns a dictionary for
every state and oracle; with no agent it returns the error dict from the
early return, and when the remote block retrieval fails the exception is
caught and an error dict is returned instead of raising. -/
theorem get_writing_progress_never_raises (env : Env) (s : WAState) (st : String)
    (pr : Option String) (a : AgentObj) (e : String) :
    (∃ d, (get_writing_progress env s).result = Except.ok d) ∧
    (get_writing_progress env ⟨none, st, pr⟩).result =
      Except.ok [("error", "智能体未创建")] ∧
    (get_writing_progress { env with retrieveResult := fun _ _ => Except.error e }
        ⟨some a, st, pr⟩).result =
      Except.ok [("error", "获取进度失败: " ++ e)] := by
  refine ⟨?_, rfl, rfl⟩
  obtain ⟨ag, ws, cp⟩ := s
  cases ag with
  | none => exact ⟨[("error", "智能体未创建")], rfl⟩
  | some a' =>
    cases hr : env.retrieveResult a'.id "current_project" with
    | error e' =>
      refine ⟨[("error", "获取进度失败: " ++ e')], ?_⟩
      simp [get_writing_progress, hr]
    | ok b =>
      refine ⟨[("current_project", b.value), ("agent_id", a'.id), ("agent_name", a'.name)], ?_⟩
      simp [get_writing_progress, hr]

/-- C6: the prompt built by `generate_outline` (both variants) contains the
supplied topic verbatim as a substring, the prompt built by `research_topic`
contains the supplied topic verbatim, and the prompt built by
`expand_content` contains the section name and each supplied key point
verbatim. -/
theorem prompts_contain_inputs_verbatim (topic stype instr sec : String)
    (kps : List String) (wc : Nat) :
    strContains (generate_outline_prompt topic stype) topic ∧
    strContains (generate_outline_prompt_local topic stype) topic ∧
    strContains (research_topic_prompt topic instr) topic ∧
    strContains (expand_content_prompt sec kps wc) sec ∧
    ∀ p ∈ kps, strContains (expand_content_prompt sec kps wc) p := by
  refine ⟨?_, ?_, ?_, ?_, ?_⟩
  · unfold generate_outline_prompt
    exact strContains_str_left _ _ _ (strContains_str_left _ _ _ (strContains_str_left _ _ _
      (strContains_str_right _ _ _ (strContains_str_self topic))))
  · unfold generate_outline_prompt_local
    exact strContains_str_left _ _ _ (strContains_str_left _ _ _ (strContains_str_left _ _ _
      (strContains_str_right _ _ _ (strContains_str_self topic))))
  · unfold research_topic_prompt
    exact strContains_str_left _ _ _ (strContains_str_left _ _ _ (strContains_str_left _ _ _
      (strContains_str_right _ _ _ (strContains_str_self topic))))
  · unfold expand_content_prompt
    exact strContains_str_left _ _ _ (strContains_str_left _ _ _ (strContains_str_left _ _ _
      (strContains_str_left _ _ _ (strContains_str_left _ _ _
        (strContains_str_right _ _ _ (strContains_str_self sec))))))
  · intro p hp
    have h1 : strContains (points_text kps) p :=
      strContains_drop_pre _ "- " _ (strContains_points_text kps p hp)
    unfold expand_content_prompt
    exact strContains_str_left _ _ _ (strContains_str_left _ _ _ (strContains_str_left _ _ _
      (strContains_str_right _ _ _ h1)))

/-- C6 witness: the expand-content prompt at concrete inputs contains the
first supplied key point verbatim. -/
theorem prompts_contain_inputs_verbatim_witness :
    strContains
      (expand_content_prompt "AI 技术概述" ["机器学习的发展历程", "深度学习的关键突破"] 300)
      "机器学习的发展历程" :=
  (prompts_contain_inputs_verbatim "x" "standard" "i" "AI 技术概述"
      ["机器学习的发展历程", "深度学习的关键突破"] 300).2.2.2.2
    "机器学习的发展历程" (List.mem_cons_self _ _)

theorem depth_lookup_none (depth : String)
    (h1 : depth ≠ "shallow") (h2 : depth ≠ "medium") (h3 : depth ≠ "deep") :
    depth_instructions.lookup depth = none := by
  have b1 : (depth == "shallow") = false := beq_eq_false_iff_ne.mpr h1
  have b2 : (depth == "medium") = false := beq_eq_false_iff_ne.mpr h2
  have b3 : (depth == "deep") = false := beq_eq_false_iff_ne.mpr h3
  simp [depth_instructions, List.lookup, b1, b2, b3]

/-- C10: `research_topic` indexes `depth_instructions` without a guard —
for each of the three known depths the lookup succeeds, the remote call
carries the prompt, and that prompt embeds the corresponding instruction
text; for any other depth string it raises `KeyError(depth)` with no remote
call made and the state unchanged. -/
theorem research_topic_depth_guard (env : Env) (st : String) (pr : Option String)
    (a : AgentObj) (topic : String) :
    depth_instructions.lookup "shallow" = some "提供基础信息和概述" ∧
    depth_instructions.lookup "medium" = some "提供详细信息和多个角度" ∧
    depth_instructions.lookup "deep" = some "提供深入分析和专业见解" ∧
    (research_topic env ⟨some a, st, pr⟩ topic "shallow").trace =
      [RemoteCall.sendMessages a.id
        [MessageCreate.mk "user" (research_topic_prompt topic "提供基础信息和概述")]] ∧
    (research_topic env ⟨some a, st, pr⟩ topic "medium").trace =
      [RemoteCall.sendMessages a.id
        [MessageCreate.mk "user" (research_topic_prompt topic "提供详细信息和多个角度")]] ∧
    (research_topic env ⟨some a, st, pr⟩ topic "deep").trace =
      [RemoteCall.sendMessages a.id
        [MessageCreate.mk "user" (research_topic_prompt topic "提供深入分析和专业见解")]] ∧
    strContains (research_topic_prompt topic "提供基础信息和概述") "提供基础信息和概述" ∧
    strContains (research_topic_prompt topic "提供详细信息和多个角度") "提供详细信息和多个角度" ∧
    strContains (research_topic_prompt topic "提供深入分析和专业见解") "提供深入分析和专业见解" ∧
    ∀ depth : String, depth ∉ (["shallow", "medium", "deep"] : List String) →
      research_topic env ⟨some a, st, pr⟩ topic depth =
        ⟨Except.error (PyExc.keyError depth), [], ⟨some a, st, pr⟩⟩ := by
  have hinstr : ∀ instr : String,
      strContains (research_topic_prompt topic instr) instr := by
    intro instr
    unfold research_topic_prompt
    exact strContains_str_left _ _ _ (strContains_str_right _ _ _ (strContains_str_self instr))
  have htr : ∀ instr : String,
      (send_and_take_last env ⟨some a, st, pr⟩ a (research_topic_prompt topic instr)).trace =
        [RemoteCall.sendMessages a.id
          [MessageCreate.mk "user" (research_topic_prompt topic instr)]] :=
    fun instr => send_and_take_last_trace env ⟨some a, st, pr⟩ a (research_topic_prompt topic instr)
  refine ⟨rfl, rfl, rfl, htr _, htr _, htr _, hinstr _, hinstr _, hinstr _, ?_⟩
  intro depth hd
  have h1 : depth ≠ "shallow" := fun hq => hd (by simp [hq])
  have h2 : depth ≠ "medium" := fun hq => hd (by simp [hq])
  have h3 : depth ≠ "deep" := fun hq => hd (by simp [hq])
  have hl := depth_lookup_none depth h1 h2 h3
  have hrw : research_topic env ⟨some a, st, pr⟩ topic depth =
      (match depth_instructions.lookup depth with
       | none => ⟨Except.error (PyExc.keyError depth), [], ⟨some a, st, pr⟩⟩
       | some instr =>
         send_and_take_last env ⟨some a, st, pr⟩ a (research_topic_prompt topic instr)) := rfl
  rw [hrw, hl]

/-- C10 witness: at the concrete unknown depth "very-deep", `research_topic`
raises `KeyError` without any remote call. -/
theorem research_topic_depth_guard_witness :
    research_topic sampleEnv ⟨some ⟨"agent-1", "writer"⟩, "s", none⟩ "AI" "very-deep" =
      ⟨Except.error (PyExc.keyError "very-deep"), [],
        ⟨some ⟨"agent-1", "writer"⟩, "s", none⟩⟩ :=
  (research_topic_depth_guard sampleEnv "s" none ⟨"agent-1", "writer"⟩
      "AI").2.2.2.2.2.2.2.2.2 "very-deep" (by decide)

/-- An oracle whose message endpoint answers with a single non-assistant
message whose content is "X". -/
def c1Env : Env :=
  { now := "2025-01-01 00:00:00"
  , createAgentResult := fun _ => Except.error "unavailable"
  , sendResult := fun _ _ => Except.ok ⟨[⟨"tool_call_message", "X"⟩]⟩
  , modifyResult := fun _ _ _ _ => Except.error "unavailable"
  , retrieveResult := fun _ _ => Except.error "unavailable" }

/-- C1 counterexample: with an agent present and a non-empty remote response
whose last message has content "X" but message type "tool_call_message",
`write_article` returns the fixed string "写作完成", not the last message's
content. -/
theorem write_article_not_last_content :
    c1Env.sendResult "agent-1" [MessageCreate.mk "user" (write_article_prompt "AI")] =
      Except.ok ⟨[⟨"tool_call_message", "X"⟩]⟩ ∧
    (write_article c1Env ⟨"agent-1", "writer"⟩ "AI").1 = Except.ok "写作完成" ∧
    ("写作完成" : String) ≠ "X" := by
  refine ⟨rfl, rfl, by decide⟩

/-- C1 amended: with an agent present and a non-empty remote message list,
the five `WritingAgent` prompt operations (and the local variant's
`generate_outline`) return exactly the content of the last message;
`write_article` returns that content only when the last message's
`message_type` equals "assistant_message", and the fixed string "写作完成"
otherwise. -/
theorem ops_return_last_message_content (env : Env) (ms : List LettaMessage)
    (m : LettaMessage) (st : String) (pr : Option String) (a : AgentObj)
    (topic stype sec cont tsty : String) (kps : List String)
    (fa : Option (List String)) (wc : Nat) :
    (generate_outline { env with sendResult := fun _ _ => Except.ok ⟨ms ++ [m]⟩ }
        ⟨some a, st, pr⟩ topic stype).result = Except.ok m.content ∧
    (expand_content { env with sendResult := fun _ _ => Except.ok ⟨ms ++ [m]⟩ }
        ⟨some a, st, pr⟩ sec kps wc).result = Except.ok m.content ∧
    (polish_content { env with sendResult := fun _ _ => Except.ok ⟨ms ++ [m]⟩ }
        ⟨some a, st, pr⟩ cont fa).result = Except.ok m.content ∧
    (adjust_style { env with sendResult := fun _ _ => Except.ok ⟨ms ++ [m]⟩ }
        ⟨some a, st, pr⟩ cont tsty).result = Except.ok m.content ∧
    (research_topic { env with sendResult := fun _ _ => Except.ok ⟨ms ++ [m]⟩ }
        ⟨some a, st, pr⟩ topic "medium").result = Except.ok m.content ∧
    (generate_outline_local { env with sendResult := fun _ _ => Except.ok ⟨ms ++ [m]⟩ }
        ⟨some a, st, pr⟩ topic stype).result = Except.ok m.content ∧
    (write_article { env with sendResult := fun _ _ => Except.ok ⟨ms ++ [m]⟩ } a topic).1 =
      Except.ok (if m.message_type == "assistant_message" then m.content else "写作完成") := by
  refine ⟨send_and_take_last_concat _ _ _ _ ms m rfl, send_and_take_last_concat _ _ _ _ ms m rfl,
    send_and_take_last_concat _ _ _ _ ms m rfl, send_and_take_last_concat _ _ _ _ ms m rfl,
    send_and_take_last_concat _ _ _ _ ms m rfl, send_and_take_last_concat _ _ _ _ ms m rfl, ?_⟩
  have h : ({ env with sendResult := fun _ _ => Except.ok ⟨ms ++ [m]⟩ } : Env).sendResult a.id
      [MessageCreate.mk "user" (write_article_prompt topic)] = Except.ok ⟨ms ++ [m]⟩ := rfl
  unfold write_article
  rw [h]
  simp [List.getLast?_concat]

/-- C3 counterexample: a `WritingAgent` constructed with the empty-string
token builds its client from the base URL, not from that token, because the
source tests the token with Python truthiness. -/
theorem letta_client_init_empty_token :
    letta_client_init "http://localhost:8283" (some "") =
      ClientConfig.fromBaseUrl "http://localhost:8283" none ∧
    ClientConfig.fromBaseUrl "http://localhost:8283" none ≠ ClientConfig.fromToken "" := by
  refine ⟨rfl, by decide⟩

/-- C3 amended: constructed with a non-empty token the client is built from
that token (in the local variant together with the cloud model pair);
constructed without a token, or with an empty one, the client is built from
the base URL, whose default value is `http://localhost:8283` (the local
variant also passes `timeout=120` and picks the deepseek/ollama pair). -/
theorem letta_client_init_spec (base t : String) (h : t ≠ "") :
    letta_client_init base (some t) = ClientConfig.fromToken t ∧
    letta_client_init base none = ClientConfig.fromBaseUrl base none ∧
    letta_client_init base (some "") = ClientConfig.fromBaseUrl base none ∧
    default_base_url = "http://localhost:8283" ∧
    letta_client_init_local base (some t) =
      ⟨ClientConfig.fromToken t, "openai/gpt-4o-mini", "openai/text-embedding-3-small"⟩ ∧
    letta_client_init_local base none =
      ⟨ClientConfig.fromBaseUrl base (some 120), "deepseek/deepseek-chat",
        "ollama/nomic-embed-text:latest"⟩ ∧
    letta_client_init_local base (some "") =
      ⟨ClientConfig.fromBaseUrl base (some 120), "deepseek/deepseek-chat",
        "ollama/nomic-embed-text:latest"⟩ := by
  have hb : (t != "") = true := bne_iff_ne.mpr h
  refine ⟨?_, rfl, rfl, rfl, ?_, rfl, rfl⟩
  · simp [letta_client_init, hb]
  · simp [letta_client_init_local, hb]

/-- C3 witness at a concrete non-empty token. -/
theorem letta_client_init_spec_witness :
    letta_client_init "http://localhost:8283" (some "sk-token-1") =
      ClientConfig.fromToken "sk-token-1" :=
  (letta_client_init_spec "http://localhost:8283" "sk-token-1" (by decide)).1

/-- C4 counterexample: the agent-creation call of `ultimate_simple.py`
passes no tool-name list and its only memory block carries no description;
the creation call of `writing_agent.py` passes blocks without descriptions
as well. -/
theorem create_request_missing_fields :
    ultimate_create_request.tools = none ∧
    (ultimate_create_request.memory_blocks.map (fun b => b.description)) = [none] ∧
    ((create_agent_request "writer_agent_v3" "专业、清晰、有逻辑性").memory_blocks.map
      (fun b => b.description)) = [none, none, none] :=
  ⟨rfl, rfl, rfl⟩

theorem create_writing_agent_trace (env : Env) (s : WAState) (name : String) :
    (create_writing_agent env s name none).trace =
      [RemoteCall.createAgent (create_agent_request name s.writing_style)] := by
  have hrw : create_writing_agent env s name none =
      (match env.createAgentResult (create_agent_request name s.writing_style) with
       | Except.error e =>
         ⟨Except.error (PyExc.remoteError e),
           [RemoteCall.createAgent (create_agent_request name s.writing_style)], s⟩
       | Except.ok a =>
         ⟨Except.ok a.id,
           [RemoteCall.createAgent (create_agent_request name s.writing_style)],
           { s with agent := some a }⟩) := rfl
  rw [hrw]
  cases env.createAgentResult (create_agent_request name s.writing_style) <;> rfl

theorem create_writing_agent_local_trace (env : Env) (s : WAState)
    (model embedding name : String) :
    (create_writing_agent_local env s model embedding name none).trace =
      [RemoteCall.createAgent
        (create_agent_request_local name s.writing_style model embedding)] := by
  have hrw : create_writing_agent_local env s model embedding name none =
      (match env.createAgentResult
          (create_agent_request_local name s.writing_style model embedding) with
       | Except.error e =>
         ⟨Except.error (PyExc.remoteError e),
           [RemoteCall.createAgent
             (create_agent_request_local name s.writing_style model embedding)], s⟩
       | Except.ok a =>
         ⟨Except.ok a.id,
           [RemoteCall.createAgent
             (create_agent_request_local name s.writing_style model embedding)],
           { s with agent := some a }⟩) := rfl
  rw [hrw]
  cases env.createAgentResult (create_agent_request_local name s.writing_style model embedding)
    <;> rfl

/-- C4 amended: every agent-creation call passes a name, a list of
memory-block descriptors each with a label and an initial text value, a
model identifier and an embedding identifier; the two `WritingAgent`
variants additionally pass the tool-name list `["web_search"]`, only the
local variant's blocks carry descriptions, and `ultimate_simple.py` passes a
single description-less block and no tool list at all. -/
theorem create_calls_shape (env : Env) (s : WAState) (name style model embedding : String) :
    (create_writing_agent env s name none).trace =
      [RemoteCall.createAgent (create_agent_request name s.writing_style)] ∧
    (create_writing_agent_local env s model embedding name none).trace =
      [RemoteCall.createAgent
        (create_agent_request_local name s.writing_style model embedding)] ∧
    (create_agent_request name style).name = name ∧
    (create_agent_request name style).model = "openai/gpt-4o-mini" ∧
    (create_agent_request name style).embedding = "openai/text-embedding-3-small" ∧
    (create_agent_request name style).tools = some ["web_search"] ∧
    ((create_agent_request name style).memory_blocks.map (fun b => b.label)) =
      ["persona", "writing_skills", "current_project"] ∧
    ((create_agent_request name style).memory_blocks.map (fun b => b.description)) =
      [none, none, none] ∧
    (create_agent_request_local name style model embedding).model = model ∧
    (create_agent_request_local name style model embedding).embedding = embedding ∧
    (create_agent_request_local name style model embedding).tools = some ["web_search"] ∧
    ((create_agent_request_local name style model embedding).memory_blocks.all
      (fun b => b.description.isSome)) = true ∧
    ultimate_create_request.name = "deepseek_writer" ∧
    ultimate_create_request.model = "deepseek/deepseek-chat" ∧
    ultimate_create_request.embedding = "ollama/nomic-embed-text:latest" ∧
    ultimate_create_request.tools = none ∧
    (ultimate_create_request.memory_blocks.map (fun b => b.label)) = ["persona"] :=
  ⟨create_writing_agent_trace env s name,
    create_writing_agent_local_trace env s model embedding name,
    rfl, rfl, rfl, rfl, rfl, rfl, rfl, rfl, rfl, rfl, rfl, rfl, rfl, rfl, rfl⟩

/-- C7: `create_writer` raises `ValueError` and makes no remote call iff the
`DEEPSEEK_API_KEY` environment variable is unset or empty; with a non-empty
key it proceeds to issue the `agents.create` call and never raises a
`ValueError`. -/
theorem create_writer_gating (env : Env) (k : String) (hk : k ≠ "") :
    create_writer env none =
      (Except.error (PyExc.valueError "需要设置 DEEPSEEK_API_KEY 环境变量"), []) ∧
    create_writer env (some "") =
      (Except.error (PyExc.valueError "需要设置 DEEPSEEK_API_KEY 环境变量"), []) ∧
    (create_writer env (some k)).2 = [RemoteCall.createAgent ultimate_create_request] ∧
    ∀ msg, (create_writer env (some k)).1 ≠ Except.error (PyExc.valueError msg) := by
  have hb : (pyTruthyStr (some k)) = true := bne_iff_ne.mpr hk
  have hcw : create_writer env (some k) =
      (match env.createAgentResult ultimate_create_request with
       | Except.error e =>
         (Except.error (PyExc.remoteError e),
           [RemoteCall.createAgent ultimate_create_request])
       | Except.ok a =>
         (Except.ok (ClientConfig.fromBaseUrl "http://localhost:8283" none, a),
           [RemoteCall.createAgent ultimate_create_request])) := by
    unfold create_writer
    rw [hb]
    simp
  refine ⟨rfl, rfl, ?_, ?_⟩
  · rw [hcw]
    cases env.createAgentResult ultimate_create_request <;> rfl
  · intro msg
    rw [hcw]
    cases env.createAgentResult ultimate_create_request <;> simp

/-- C7 witness: with a concrete non-empty key, `create_writer` issues the
agent-creation call. -/
theorem create_writer_gating_witness :
    (create_writer sampleEnv (some "sk-key-1")).2 =
      [RemoteCall.createAgent ultimate_create_request] :=
  (create_writer_gating sampleEnv "sk-key-1" (by decide)).2.2.1
